import Mathlib

/-!
# SmartLibrarian — shallow embedding and verification

A shallow embedding of the SmartLibrarian book-recommendation assistant
(`app/api.py`, `app/app.py`, `app/tools.py`, `app/tools/*.py`) together with
proofs about the claims of the specification.

Remote services (the OpenAI chat model, TTS/STT/image endpoints, the Chroma
vector store) and the third-party profanity word list are external
collaborators of the repository: they are abstracted as explicit parameters
(a sequence of chat replies, result values of remote calls, an abstract
hash function and predicates), and every theorem quantifies over them.
Everything the repository itself computes is embedded from the source.

Unicode caveat: Python `str.lower`, `str.casefold` and
`unicodedata.normalize("NFKC", ·)` are full-Unicode table lookups.  The
embedding restricts them to the ASCII fragment the development ranges over:
there `lower` and `casefold` coincide with the A–Z to a–z map and NFKC is
the identity.
-/

/-- Python `str.strip()`: drop leading and trailing whitespace. -/
def pyStrip (s : String) : String :=
  String.mk (((s.toList.dropWhile Char.isWhitespace).reverse.dropWhile
    Char.isWhitespace).reverse)

/-- Python `str.lower`, restricted to ASCII where it maps A–Z to a–z
(`Char.toLower` is exactly that map). -/
def pyLower (s : String) : String := String.mk (s.toList.map Char.toLower)

/-- Python `str.casefold`, restricted to ASCII, where it coincides with
`str.lower`. -/
def pyCasefold (s : String) : String := String.mk (s.toList.map Char.toLower)

/-- Python `unicodedata.normalize("NFKC", s)`: the identity on ASCII strings
(every ASCII string is NFKC-normal). -/
def pyNFKC (s : String) : String := s

/-- Python `needle in hay` on strings: substring containment. -/
def pyIn (needle hay : String) : Bool :=
  (hay.toList.tails).any fun t => needle.toList.isPrefixOf t

/-- Python truthiness cast of an optional string field (`d.get(k) or ""`):
a missing key and an empty string both collapse to `""`. -/
def truthyStr (o : Option String) : String := o.getD ""

/-- Python `a or b` for strings: `b` when `a` is empty. -/
def pyOrStr (a b : String) : String := if a = "" then b else a

/-- Python `a or b` where `a` is an optional string (`None` and `""` both
fall through to `b`). -/
def pyOrOpt (a : Option String) (b : String) : String := pyOrStr (truthyStr a) b

/-- Python `x1 or x2 or ... or ""` over optional string fields: the first
truthy (nonempty, present) one, else `""`. -/
def firstNonempty : List (Option String) → String
  | [] => ""
  | o :: rest => pyOrStr (truthyStr o) (firstNonempty rest)

/-- A record of the catalog file `data/book_summaries.json`.  The validator
and the lookups access the keys `title`, `short`, `full` and (defensively)
`summary` and `description`; a JSON object may lack any of them, hence
`Option`. -/
structure Book where
  title : Option String
  short : Option String
  full : Option String
  summary : Option String
  description : Option String
  tags : List String
deriving DecidableEq, Repr

/-- The result fields of `summary.py` / `tools.py`:
`b.get("full") or b.get("summary") or b.get("description") or b.get("short")`. -/
def fullChain (b : Book) : String :=
  firstNonempty [b.full, b.summary, b.description, b.short]

/-- The fixed not-found string shared by both lookups. -/
def notFoundMsg : String :=
  "Sorry, I couldn\x27t find that title in the dataset. Please check your JSON."

namespace SummaryTool

/-- `app/tools/summary.py`, `get_summary_by_title` — the lookup every tool
loop actually invokes: `app/tools/recommend.py` imports it directly
(`from .summary import ...`), and `app/app.py`'s
`from app.tools import get_summary_by_title` also binds it, because the
`app/tools` package shadows the `app/tools.py` module and the package's
`__init__.py` re-exports this function.  The title and each catalog title
are compared after `(· or "").strip().lower()`; the only match tried is
exact equality under that comparison; on a match the summary field chain
ends in `or ""`, and otherwise the fixed not-found string is returned. -/
def get_summary_by_title (books : List Book) (title : String) : String :=
  let t := pyLower (pyStrip (pyOrStr title ""))
  match books.find? (fun b => pyLower (pyStrip (truthyStr b.title)) == t) with
  | some b => fullChain b
  | none => notFoundMsg

end SummaryTool

namespace ToolsTop

/-- `app/tools.py`, `_norm`:
`unicodedata.normalize("NFKC", s or "").casefold().strip()`. -/
def _norm (s : String) : String := pyStrip (pyCasefold (pyNFKC (pyOrStr s "")))

/-- The found-branch of `app/tools.py`:
`full = b.get("full") or ... or b.get("short"); return full or <fallback>`. -/
def fullOrFallback (b : Book) : String :=
  pyOrStr (fullChain b)
    "I couldn\x27t find a full summary for this title in the dataset."

/-- `app/tools.py`, `get_summary_by_title`.  Exact match on `_norm`-equal
titles first; then a substring fallback (`t in _norm(title)`); then the
fixed not-found string.  This module is shadowed by the `app/tools`
package: `from app.tools import get_summary_by_title` resolves to the
package's `__init__.py`, which re-exports `summary.py`'s exact-only lookup,
so no code path of the repository invokes this function — it is dead
code. -/
def get_summary_by_title (books : List Book) (title : String) : String :=
  let t := _norm title
  match books.find? (fun b => _norm (truthyStr b.title) == t) with
  | some b => fullOrFallback b
  | none =>
    match books.find? (fun b => pyIn t (_norm (truthyStr b.title))) with
    | some b => fullOrFallback b
    | none => notFoundMsg

end ToolsTop

/-- One decoded tool call of a chat reply: `tc.function.name` and the
`title` field of `json.loads(tc.function.arguments or "{}")`
(`args.get("title")`, possibly absent). -/
structure FnCall where
  name : String
  titleArg : Option String
deriving DecidableEq, Repr

/-- One chat-completion reply (`resp.choices[0].message`): its text content
(possibly `None`) and its list of tool calls (`None` is the empty list;
Python tests `if msg.tool_calls:`, so an empty list also means no tool
round). -/
structure ChatMsg where
  content : Option String
  tool_calls : List FnCall
deriving DecidableEq, Repr

/-- The remote chat model, abstracted as the sequence of replies it returns
on successive completion rounds.  The message history the code maintains
influences the remote model only; quantifying over all reply sequences
covers every possible model behaviour. -/
def ChatOracle : Type := Nat → ChatMsg

/-- The inner `for tc in msg.tool_calls` loop of
`app/tools/recommend.py::recommend_with_toolcall`, threading the
`(chosen_title, chosen_full)` state: for each call named
`get_summary_by_title`, the trimmed title argument is looked up with
`SummaryTool.get_summary_by_title` and each of the two components is
overwritten when the new value is nonempty. -/
def execToolCalls (books : List Book) (st : String × String) :
    List FnCall → String × String
  | [] => st
  | tc :: rest =>
    if tc.name = "get_summary_by_title" then
      let title := pyStrip (truthyStr tc.titleArg)
      let full_summary := SummaryTool.get_summary_by_title books title
      execToolCalls books
        ((if title ≠ "" then title else st.1),
         (if full_summary ≠ "" then full_summary else st.2)) rest
    else
      execToolCalls books st rest

/-- The fixed apology returned when the round bound is exhausted. -/
def exhaustedMsg : String := "Sorry, I couldn\x27t complete the tool interaction."

/-- The fallback when a final reply has empty content. -/
def noContentMsg : String := "Sorry, I couldn\x27t generate a response."

/-- The `for _ in range(6)` loop of
`app/tools/recommend.py::recommend_with_toolcall`: fuel counts the rounds
still allowed, `i` is the next oracle index, `st` the captured
`(chosen_title, chosen_full)`.  Returns the `(answer, title, summary)`
triple together with the number of chat completions performed. -/
def recommendLoop (books : List Book) (oracle : ChatOracle) :
    Nat → Nat → String × String → (String × String × String) × Nat
  | 0, _, st => ((exhaustedMsg, st.1, st.2), 0)
  | n + 1, i, st =>
    let msg := oracle i
    if msg.tool_calls ≠ [] then
      let r := recommendLoop books oracle n (i + 1) (execToolCalls books st msg.tool_calls)
      (r.1, r.2 + 1)
    else
      ((pyOrOpt msg.content noContentMsg, st.1, st.2), 1)

/-- `app/tools/recommend.py::recommend_with_toolcall` with the chat model
abstracted as `oracle`: up to 6 rounds, starting from empty captured title
and summary.  `.1` is the returned triple `(final_answer_text, chosen_title,
full_summary)`, `.2` the number of chat completions performed. -/
def recommend_with_toolcall (books : List Book) (oracle : ChatOracle) :
    (String × String × String) × Nat :=
  recommendLoop books oracle 6 0 ("", "")

/-- The titles a reply's tool calls request from `get_summary_by_title`,
each decoded exactly as the loop body does (`(args.get("title") or "").strip()`);
calls to any other function name are ignored. -/
def requestedOf (tcs : List FnCall) : List String :=
  tcs.filterMap fun tc =>
    if tc.name = "get_summary_by_title" then some (pyStrip (truthyStr tc.titleArg)) else none

/-- All titles requested across oracle rounds `i, i+1, ..., i+n-1`. -/
def requestsUpTo (oracle : ChatOracle) : Nat → Nat → List String
  | 0, _ => []
  | n + 1, i => requestedOf (oracle i).tool_calls ++ requestsUpTo oracle n (i + 1)

/-- The titles requested across the rounds the loop actually executes:
stops at the first reply without tool calls or after `n` rounds. -/
def executedRequests (oracle : ChatOracle) : Nat → Nat → List String
  | 0, _ => []
  | n + 1, i =>
    if (oracle i).tool_calls ≠ [] then
      requestedOf (oracle i).tool_calls ++ executedRequests oracle n (i + 1)
    else []

/-- The last nonempty string of `l`, else `a`: the overwrite discipline of
`chosen_title` / `chosen_full`. -/
def lastNonempty (a : String) (l : List String) : String :=
  l.foldl (fun acc t => if t = "" then acc else t) a

/-- The fixed response strings of `app/api.py::recommend` (byte-for-byte the
literals of the source file). -/
def emptyQueryMsg : String := "Empty query."

/-- The fixed profanity refusal of `app/api.py::recommend`. -/
def refusalMsg : String :=
  "ü§ñ SƒÉ pƒÉstrƒÉm un ton respectuos, te rog reformuleazƒÉ üôè"

/-- The fixed no-matches message of `app/api.py::recommend`. -/
def noMatchesMsg : String :=
  "Nu am gƒÉsit potriviri. AdaugƒÉ c√¢teva detalii."

/-- `app/api.py`, `RecommendResponse`.  `D` is the opaque distance type of
the vector store (floats the code never computes with, only passes
through). -/
structure RecommendResponse (D : Type) where
  answer : String
  title : Option String
  audio_url : Option String
  image_url : Option String
  candidates : List (String × D)
deriving DecidableEq, Repr

/-- The observable external calls `app/api.py::recommend` can make:
a vector-store query, one chat completion, scheduling the background
media-generation task. -/
inductive Effect where
  | ragSearch
  | chatCompletion
  | scheduleBg
deriving DecidableEq, Repr

/-- `app/api.py::recommend` (the `POST /api/recommend` handler), with the
external collaborators abstracted: `pf` is
`app/tools/filters.py::contains_profanity` (a third-party word-list
predicate), `rag` the vector-store oracle behind
`app/main.rag_search`, `sha1hex` the hex digest of `_hash_text`
(`hashlib.sha1(s.encode()).hexdigest()`), `oracle` the chat model.
Returns the response together with the trace of external calls made
(one `chatCompletion` per loop round). -/
def recommend {D : Type} (books : List Book) (oracle : ChatOracle)
    (pf : String → Bool) (rag : String → List (String × D))
    (sha1hex : String → String) (query : String) :
    RecommendResponse D × List Effect :=
  let q := pyStrip query
  if q = "" then
    (⟨emptyQueryMsg, none, none, none, []⟩, [])
  else if pf q then
    (⟨refusalMsg, none, none, none, []⟩, [])
  else
    let hits := rag q
    if hits.isEmpty then
      (⟨noMatchesMsg, none, none, none, []⟩, [.ragSearch])
    else
      let r := recommend_with_toolcall books oracle
      let answer := r.1.1
      let picked_title := r.1.2.1
      let audio_name := sha1hex answer ++ ".mp3"
      let audio_url := "/static/stt/" ++ audio_name
      let image_url : Option String :=
        if picked_title ≠ "" then
          some ("/static/img/" ++ sha1hex ("cover:" ++ picked_title) ++ ".png")
        else none
      (⟨answer, (if picked_title = "" then none else some picked_title),
        some audio_url, image_url, hits⟩,
       [.ragSearch] ++ List.replicate r.2 .chatCompletion ++ [.scheduleBg])

/-- The file-system state the deferred task touches: the names present in
the two public media directories (`.chroma/stt` and `.chroma/img`). -/
structure BgEnv where
  sttFs : List String
  imgFs : List String
deriving DecidableEq, Repr

/-- The outcomes of the two remote synthesis calls the deferred task may
make: `some name` means the call succeeded and produced a file of that
name (in its own scratch directory), `none` that it raised or produced
nothing (`synthesize_tts` / `generate_cover_image` failures are swallowed
by the surrounding `try/except`). -/
structure BgRemote where
  ttsOut : Option String
  imgOut : Option String
deriving DecidableEq, Repr

/-- Result of one run of the deferred task: the updated directories and
whether each remote synthesis endpoint was actually invoked. -/
structure BgResult where
  env : BgEnv
  ttsCalled : Bool
  imgCalled : Bool
deriving DecidableEq, Repr

/-- The deterministic audio target name `f"{_hash_text(answer)}.mp3"`. -/
def audioNameOf (sha1hex : String → String) (answer : String) : String :=
  sha1hex answer ++ ".mp3"

/-- The deterministic cover target name `f"{_hash_text('cover:'+picked_title)}.png"`. -/
def imgNameOf (sha1hex : String → String) (picked_title : String) : String :=
  sha1hex ("cover:" ++ picked_title) ++ ".png"

/-- `app/api.py::recommend._bg_generate`, the deferred background task.
The target names are the precomputed hash-derived ones; each half first
checks `path.exists()` and skips the remote call when the file is already
there; on a successful remote call the produced file is renamed onto the
target path unless its name already equals the target name (in which case
the produced file stays in its scratch directory and the target is never
created).  The image half runs only when `picked_title` is truthy. -/
def bgGenerate (sha1hex : String → String) (answer picked_title : String)
    (env : BgEnv) (remote : BgRemote) : BgResult :=
  let audio_name := audioNameOf sha1hex answer
  let sttFs1 :=
    if env.sttFs.contains audio_name then env.sttFs
    else match remote.ttsOut with
      | some out => if out ≠ audio_name then audio_name :: env.sttFs else env.sttFs
      | none => env.sttFs
  let ttsCalled := ! env.sttFs.contains audio_name
  let img_name := imgNameOf sha1hex picked_title
  let imgSkip := picked_title == "" || env.imgFs.contains img_name
  let imgFs1 :=
    if imgSkip then env.imgFs
    else match remote.imgOut with
      | some out => if out ≠ img_name then img_name :: env.imgFs else env.imgFs
      | none => env.imgFs
  ⟨⟨sttFs1, imgFs1⟩, ttsCalled, ! imgSkip⟩

/-- Uploaded audio content: a byte sequence. -/
abbrev Bytes := List Nat

/-- Python `pathlib.PurePath(name).suffix` for a plain file name: the part
from the last dot on, when that dot is neither the first nor the last
character of the name; otherwise the empty string. -/
def pySuffix (name : String) : String :=
  let cs := name.toList
  match ((List.range cs.length).filter fun i => cs.getD i ' ' = '.').getLast? with
  | some i => if 0 < i ∧ i < cs.length - 1 then String.mk (cs.drop i) else ""
  | none => ""

/-- The allowed upload extensions of `app/api.py::stt_transcribe`. -/
def allowedExts : List String := [".mp3", ".wav", ".m4a", ".webm", ".ogg"]

/-- Python `dict.get` on the transcript cache, modelled as an association
list where a later insertion shadows an earlier one. -/
def dictGet (m : List (String × String)) (k : String) : Option String :=
  (m.find? fun p => p.1 == k).map (·.2)

/-- The state `app/api.py::stt_transcribe` touches: the upload directory
(file name and content of every file, newest first), the in-memory
`STT_CACHE` dict, and the on-disk JSON document `transcripts.json`
(`persisted`). -/
structure SttState where
  files : List (String × Bytes)
  cache : List (String × String)
  persisted : List (String × String)
deriving DecidableEq, Repr

/-- The JSON body of a successful `POST /api/stt/transcribe` response. -/
structure SttResp where
  text : String
  url : String
  cached : Bool
deriving DecidableEq, Repr

/-- Outcome of one call of `stt_transcribe`: an `HTTPException` with its
status code, or a JSON response; in both cases the resulting state and
whether the remote transcription endpoint was invoked. -/
inductive SttResult where
  | httpError (code : Nat) (st : SttState) (remoteCalled : Bool)
  | ok (resp : SttResp) (st : SttState) (remoteCalled : Bool)
deriving DecidableEq, Repr

/-- The state component of an `SttResult`. -/
def SttResult.state : SttResult → SttState
  | .httpError _ st _ => st
  | .ok _ st _ => st

/-- `app/api.py::stt_transcribe` (the `POST /api/stt/transcribe` handler).
`sha1file` abstracts `_sha1_file` (the SHA-1 hex digest of a file's bytes;
the freshly written destination file holds exactly the uploaded bytes, so
it is applied to `content` directly).  `fresh` is the `uuid4().hex` stem of
the destination name, `remote` the result of `transcribe_audio` (`none` =
raised).  The upload is written to the fresh destination before the cache
is consulted; `_stt_cache_put` inserts into the dict and rewrites the whole
mapping as one JSON document (`persisted`). -/
def stt_transcribe (sha1file : Bytes → String) (st : SttState)
    (filename : String) (content : Bytes) (fresh : String)
    (remote : Option String) : SttResult :=
  let ext := pyLower (pyOrStr (pySuffix filename) "")
  if ¬ (allowedExts.contains ext) then .httpError 400 st false
  else
    let fname := fresh ++ ext
    let st1 : SttState := { st with files := (fname, content) :: st.files }
    match dictGet st1.cache (sha1file content) with
    | some cached => .ok ⟨cached, "/static/stt/" ++ fname, true⟩ st1 false
    | none =>
      match remote with
      | none => .httpError 500 st1 true
      | some text =>
        let cache1 := (sha1file content, pyOrStr text "") :: st1.cache
        .ok ⟨pyOrStr text "", "/static/stt/" ++ fname, false⟩
          { st1 with cache := cache1, persisted := cache1 } true

/-- Python truthiness of a `Book` field used by `validate_dataset`
(`not b.get(k)`). -/
def truthyField (o : Option String) : Bool := truthyStr o != ""

/-- `missing = [k for k in ("title", "short", "full") if not b.get(k)]`. -/
def missingOf (b : Book) : List String :=
  (["title", "short", "full"].zip [b.title, b.short, b.full]).filterMap
    fun p => if truthyField p.2 then none else some p.1

/-- The Python `repr` of the `missing` list as it appears inside the
f-string warning (e.g. `['title', 'short']`). -/
def missingRepr (l : List String) : String :=
  "[" ++ String.intercalate ", " (l.map fun k => "\x27" ++ k ++ "\x27") ++ "]"

/-- `f"Dataset has {len(books)} entries; assignment requires at least 10."`. -/
def sizeMsg (n : Nat) : String :=
  "Dataset has " ++ toString n ++ " entries; assignment requires at least 10."

/-- `f"Book #{i} missing {missing}: {b.get('title', '(no title)')}"` — note
`dict.get` with a default substitutes only when the key is absent, not when
it is empty. -/
def bookMsg (i : Nat) (b : Book) : String :=
  "Book #" ++ toString i ++ " missing " ++ missingRepr (missingOf b) ++ ": " ++
    (b.title.getD "(no title)")

/-- The `for i, b in enumerate(books)` loop of `validate_dataset`: in strict
mode the first bad record raises; otherwise each bad record appends its
warning. -/
def checkBooks (strict : Bool) : Nat → List Book → Except String (List String)
  | _, [] => .ok []
  | i, b :: rest =>
    if missingOf b ≠ [] then
      if strict then .error (bookMsg i b)
      else
        match checkBooks strict (i + 1) rest with
        | .ok ws => .ok (bookMsg i b :: ws)
        | .error e => .error e
    else checkBooks strict (i + 1) rest

/-- `app/tools/dataset.py::validate_dataset` (identical copy in
`app/app.py`), applied to an already-loaded catalog: fewer than 10 records
raises in strict mode (before any record is inspected) or contributes the
first warning; then every record lacking a nonempty `title`, `short` or
`full` raises (strict) or appends a warning. -/
def validate_dataset (books : List Book) (strict : Bool) :
    Except String (List String) :=
  if books.length < 10 then
    if strict then .error (sizeMsg books.length)
    else (checkBooks strict 0 books).map (sizeMsg books.length :: ·)
  else checkBooks strict 0 books

/-- `lastNonempty` splits across an append. -/
theorem lastNonempty_append (a : String) (l₁ l₂ : List String) :
    lastNonempty a (l₁ ++ l₂) = lastNonempty (lastNonempty a l₁) l₂ := by
  simp [lastNonempty, List.foldl_append]

/-- The inner tool-execution loop keeps exactly the last nonempty requested
title and the last nonempty lookup result. -/
theorem execToolCalls_eq (books : List Book) (st : String × String)
    (tcs : List FnCall) :
    execToolCalls books st tcs =
      (lastNonempty st.1 (requestedOf tcs),
       lastNonempty st.2
         ((requestedOf tcs).map (SummaryTool.get_summary_by_title books))) := by
  induction tcs generalizing st with
  | nil => simp [execToolCalls, requestedOf, lastNonempty]
  | cons tc rest ih =>
    by_cases h : tc.name = "get_summary_by_title"
    · simp only [execToolCalls, requestedOf, List.filterMap_cons, h, if_pos,
        List.map_cons]
      rw [ih]
      simp only [lastNonempty, List.foldl_cons, requestedOf]
      by_cases ht : pyStrip (truthyStr tc.titleArg) = "" <;>
        by_cases hf :
          SummaryTool.get_summary_by_title books (pyStrip (truthyStr tc.titleArg)) = "" <;>
        simp [ht, hf]
    · simp [execToolCalls, requestedOf, h, ih]

/-- The loop performs at most `fuel` chat completions. -/
theorem recommendLoop_rounds_le (books : List Book) (oracle : ChatOracle) :
    ∀ (n i : Nat) (st : String × String),
      (recommendLoop books oracle n i st).2 ≤ n := by
  intro n
  induction n with
  | zero => intro i st; simp [recommendLoop]
  | succ n ih =>
    intro i st
    by_cases h : (oracle i).tool_calls ≠ [] <;> simp [recommendLoop, h]
    exact ih (i + 1) _

/-- When every consulted reply requests tool calls, the loop runs out of
fuel and returns the apology together with the last nonempty captured title
and summary. -/
theorem recommendLoop_exhausted (books : List Book) (oracle : ChatOracle) :
    ∀ (n i : Nat) (st : String × String),
      (∀ j, j < n → (oracle (i + j)).tool_calls ≠ []) →
      recommendLoop books oracle n i st =
        ((exhaustedMsg,
          lastNonempty st.1 (requestsUpTo oracle n i),
          lastNonempty st.2
            ((requestsUpTo oracle n i).map (SummaryTool.get_summary_by_title books))), n) := by
  intro n
  induction n with
  | zero => intro i st _; simp [recommendLoop, requestsUpTo, lastNonempty]
  | succ n ih =>
    intro i st h
    have h0 : (oracle i).tool_calls ≠ [] := by
      simpa using h 0 (Nat.succ_pos n)
    have hrest : ∀ j, j < n → (oracle (i + 1 + j)).tool_calls ≠ [] := by
      intro j hj
      have := h (j + 1) (Nat.succ_lt_succ hj)
      simpa [Nat.add_assoc, Nat.add_comm, Nat.add_left_comm] using this
    simp only [recommendLoop, requestsUpTo, if_pos h0, h0, ne_eq,
      not_false_eq_true, if_true]
    rw [ih (i + 1) (execToolCalls books st (oracle i).tool_calls) hrest,
      execToolCalls_eq]
    simp [lastNonempty_append]

/-- C1: `recommend_with_toolcall` performs at most 6 chat-completion rounds
and terminates (it is a total function); if all 6 consulted replies request
tool calls, it returns the fixed apology together with the last nonempty
title requested across those rounds and the last nonempty summary the
lookups returned for them — both possibly empty. -/
theorem recommend_with_toolcall_bounded (books : List Book) (oracle : ChatOracle) :
    (recommend_with_toolcall books oracle).2 ≤ 6 ∧
    ((∀ i, i < 6 → (oracle i).tool_calls ≠ []) →
      (recommend_with_toolcall books oracle).1 =
        (exhaustedMsg,
         lastNonempty "" (requestsUpTo oracle 6 0),
         lastNonempty ""
           ((requestsUpTo oracle 6 0).map (SummaryTool.get_summary_by_title books)))) := by
  constructor
  · exact recommendLoop_rounds_le books oracle 6 0 ("", "")
  · intro h
    have := recommendLoop_exhausted books oracle 6 0 ("", "")
      (fun j hj => by simpa using h j hj)
    simp [recommend_with_toolcall, this]

/-- Witness for C1: an oracle that always requests a tool call whose
function name is not `get_summary_by_title` exhausts the bound; nothing is
ever captured, so the returned title and summary are both empty. -/
theorem recommend_with_toolcall_bounded_witness :
    (recommend_with_toolcall [] (fun _ => ⟨none, [⟨"other", none⟩]⟩)).2 ≤ 6 ∧
    (recommend_with_toolcall [] (fun _ => ⟨none, [⟨"other", none⟩]⟩)).1 =
      (exhaustedMsg, "", "") :=
  ⟨(recommend_with_toolcall_bounded [] (fun _ => ⟨none, [⟨"other", none⟩]⟩)).1,
   by
     rw [(recommend_with_toolcall_bounded [] (fun _ => ⟨none, [⟨"other", none⟩]⟩)).2
       (fun i _ => by decide)]
     decide⟩

/-- The `chosen_title` component the loop returns is the last nonempty
title requested across the rounds it actually executes, whatever the
catalog contains. -/
theorem recommendLoop_chosen (books : List Book) (oracle : ChatOracle) :
    ∀ (n i : Nat) (st : String × String),
      ((recommendLoop books oracle n i st).1).2.1 =
        lastNonempty st.1 (executedRequests oracle n i) := by
  intro n
  induction n with
  | zero => intro i st; simp [recommendLoop, executedRequests, lastNonempty]
  | succ n ih =>
    intro i st
    by_cases h : (oracle i).tool_calls ≠ []
    · simp only [recommendLoop, executedRequests, if_pos h]
      rw [ih (i + 1) (execToolCalls books st (oracle i).tool_calls),
        execToolCalls_eq]
      simp [lastNonempty_append]
    · simp [recommendLoop, executedRequests, h, lastNonempty]

/-- C9: the `chosen_title` returned by `recommend_with_toolcall` is the
last nonempty title the model requested via the tool across the executed
rounds, for every catalog — in particular a requested title matching no
catalog record still becomes `chosen_title`; on the HTTP path the
response's `title` and cover-image URL are then built from that title. -/
theorem chosen_title_is_last_requested {D : Type} (books : List Book)
    (oracle : ChatOracle) (pf : String → Bool)
    (rag : String → List (String × D)) (sha1hex : String → String)
    (query : String)
    (h1 : pyStrip query ≠ "") (h2 : pf (pyStrip query) = false)
    (h3 : (rag (pyStrip query)).isEmpty = false) :
    ((recommend_with_toolcall books oracle).1).2.1 =
      lastNonempty "" (executedRequests oracle 6 0) ∧
    (recommend books oracle pf rag sha1hex query).1.title =
      (if lastNonempty "" (executedRequests oracle 6 0) = "" then none
       else some (lastNonempty "" (executedRequests oracle 6 0))) ∧
    (lastNonempty "" (executedRequests oracle 6 0) ≠ "" →
      (recommend books oracle pf rag sha1hex query).1.image_url =
        some ("/static/img/" ++
          sha1hex ("cover:" ++ lastNonempty "" (executedRequests oracle 6 0)) ++
          ".png")) := by
  have hc : ((recommend_with_toolcall books oracle).1).2.1 =
      lastNonempty "" (executedRequests oracle 6 0) :=
    recommendLoop_chosen books oracle 6 0 ("", "")
  refine ⟨hc, ?_, ?_⟩
  · simp [recommend, h1, h2, h3, hc]
  · intro hne
    simp [recommend, h1, h2, h3, hc, hne]

/-- Witness for C9: the model requests the absent title
`"Atlantis Unwritten"` and then answers; the catalog holds only
`"The Hobbit"`, the request matches no record (the lookup returns the fixed
not-found string), yet `chosen_title`, the response `title` and the cover
URL are all built from it. -/
theorem chosen_title_is_last_requested_witness :
    ((recommend_with_toolcall
        [⟨some "The Hobbit", some "s", some "f", none, none, []⟩]
        (fun i => if i = 0 then
          ⟨none, [⟨"get_summary_by_title", some "Atlantis Unwritten"⟩]⟩
        else ⟨some "done", []⟩)).1).2.1 = "Atlantis Unwritten" ∧
    (recommend (D := Int)
        [⟨some "The Hobbit", some "s", some "f", none, none, []⟩]
        (fun i => if i = 0 then
          ⟨none, [⟨"get_summary_by_title", some "Atlantis Unwritten"⟩]⟩
        else ⟨some "done", []⟩)
        (fun _ => false) (fun _ => [("The Hobbit", (0 : Int))]) (fun s => s)
        "quest").1.title = some "Atlantis Unwritten" ∧
    (recommend (D := Int)
        [⟨some "The Hobbit", some "s", some "f", none, none, []⟩]
        (fun i => if i = 0 then
          ⟨none, [⟨"get_summary_by_title", some "Atlantis Unwritten"⟩]⟩
        else ⟨some "done", []⟩)
        (fun _ => false) (fun _ => [("The Hobbit", (0 : Int))]) (fun s => s)
        "quest").1.image_url = some "/static/img/cover:Atlantis Unwritten.png" ∧
    SummaryTool.get_summary_by_title
      [⟨some "The Hobbit", some "s", some "f", none, none, []⟩]
      "Atlantis Unwritten" = notFoundMsg := by
  have h := chosen_title_is_last_requested (D := Int)
    [⟨some "The Hobbit", some "s", some "f", none, none, []⟩]
    (fun i => if i = 0 then
      ⟨none, [⟨"get_summary_by_title", some "Atlantis Unwritten"⟩]⟩
    else ⟨some "done", []⟩)
    (fun _ => false) (fun _ => [("The Hobbit", (0 : Int))]) (fun s => s)
    "quest" (by decide) (by decide) (by decide)
  obtain ⟨hA, hB, hC⟩ := h
  refine ⟨?_, ?_, ?_, by decide⟩
  · rw [hA]; decide
  · rw [hB]; decide
  · have := hC (by decide)
    rw [this]; decide

/-- C7: a query that is empty or whitespace-only yields the fixed
"Empty query." response with an empty candidate list, and the trace of
external calls is empty: no retrieval, no chat completion, no background
task. -/
theorem recommend_empty_query {D : Type} (books : List Book)
    (oracle : ChatOracle) (pf : String → Bool)
    (rag : String → List (String × D)) (sha1hex : String → String)
    (query : String) (h : pyStrip query = "") :
    recommend books oracle pf rag sha1hex query =
      (⟨emptyQueryMsg, none, none, none, []⟩, []) := by
  simp [recommend, h]

/-- Witness for C7: the whitespace-only query `"   "`. -/
theorem recommend_empty_query_witness :
    recommend (D := Int) [] (fun _ => ⟨some "x", []⟩) (fun _ => false)
      (fun _ => []) (fun s => s) "   " =
      (⟨emptyQueryMsg, none, none, none, []⟩, []) :=
  recommend_empty_query [] (fun _ => ⟨some "x", []⟩) (fun _ => false)
    (fun _ => []) (fun s => s) "   " (by decide)

/-- C3: a nonempty stripped query the profanity predicate flags yields the
fixed refusal response with an empty candidate list, and the trace of
external calls is empty: the vector store and the chat model are never
invoked. -/
theorem recommend_profanity_refusal {D : Type} (books : List Book)
    (oracle : ChatOracle) (pf : String → Bool)
    (rag : String → List (String × D)) (sha1hex : String → String)
    (query : String) (h1 : pyStrip query ≠ "")
    (h2 : pf (pyStrip query) = true) :
    recommend books oracle pf rag sha1hex query =
      (⟨refusalMsg, none, none, none, []⟩, []) := by
  simp [recommend, h1, h2]

/-- Witness for C3: a predicate flagging the word `"idiot"` (one of the
terms of the CLI word list) on the query `"idiot"`. -/
theorem recommend_profanity_refusal_witness :
    recommend (D := Int) [] (fun _ => ⟨some "x", []⟩)
      (fun s => pyIn "idiot" (pyLower s)) (fun _ => [("t", (0 : Int))])
      (fun s => s) "idiot" =
      (⟨refusalMsg, none, none, none, []⟩, []) :=
  recommend_profanity_refusal [] (fun _ => ⟨some "x", []⟩)
    (fun s => pyIn "idiot" (pyLower s)) (fun _ => [("t", (0 : Int))])
    (fun s => s) "idiot" (by decide) (by decide)

/-- C6: when retrieval returns zero candidates for a clean nonempty query,
the fixed no-matches response is returned with an empty candidate list; the
trace holds the retrieval call only — in particular no chat completion. -/
theorem recommend_no_candidates {D : Type} (books : List Book)
    (oracle : ChatOracle) (pf : String → Bool)
    (rag : String → List (String × D)) (sha1hex : String → String)
    (query : String) (h1 : pyStrip query ≠ "")
    (h2 : pf (pyStrip query) = false)
    (h3 : (rag (pyStrip query)).isEmpty = true) :
    recommend books oracle pf rag sha1hex query =
      (⟨noMatchesMsg, none, none, none, []⟩, [Effect.ragSearch]) ∧
    Effect.chatCompletion ∉ (recommend books oracle pf rag sha1hex query).2 := by
  have hmain : recommend books oracle pf rag sha1hex query =
      (⟨noMatchesMsg, none, none, none, []⟩, [Effect.ragSearch]) := by
    simp [recommend, h1, h2, h3]
  exact ⟨hmain, by rw [hmain]; simp⟩

/-- Witness for C6: a clean query on which the store returns nothing. -/
theorem recommend_no_candidates_witness :
    recommend (D := Int) [] (fun _ => ⟨some "x", []⟩) (fun _ => false)
      (fun _ => []) (fun s => s) "quest" =
      (⟨noMatchesMsg, none, none, none, []⟩, [Effect.ragSearch]) ∧
    Effect.chatCompletion ∉
      (recommend (D := Int) [] (fun _ => ⟨some "x", []⟩) (fun _ => false)
        (fun _ => []) (fun s => s) "quest").2 :=
  recommend_no_candidates [] (fun _ => ⟨some "x", []⟩) (fun _ => false)
    (fun _ => []) (fun s => s) "quest" (by decide) (by decide) (by decide)

/-- A one-record demonstration catalog. -/
def hobbitBook : Book :=
  ⟨some "The Hobbit", some "A hobbit goes on an adventure.",
   some "Bilbo Baggins joins a quest.", none, none, ["adventure", "friendship"]⟩

/-- The demonstration catalog as a list. -/
def demoBooks : List Book := [hobbitBook]

/-- C2 counterexample: on the catalog `["The Hobbit"]` and the title
`"hobbit"` there is no exact match but a substring match exists, yet the
tool-invoked lookup of `app/tools/summary.py` (the one every tool-calling
loop binds, both directly and through the `app/tools` package's
`__init__.py`) returns the fixed not-found string — it has no substring
fallback. -/
theorem summary_lookup_no_substring_fallback :
    demoBooks.find?
      (fun b => pyLower (pyStrip (truthyStr b.title)) ==
        pyLower (pyStrip (pyOrStr "hobbit" ""))) = none ∧
    pyIn (ToolsTop._norm "hobbit") (ToolsTop._norm (truthyStr hobbitBook.title)) = true ∧
    SummaryTool.get_summary_by_title demoBooks "hobbit" = notFoundMsg := by
  decide

/-- C2 amended: when the title matches no catalog title exactly (under
either lookup's comparison) but is a substring of some normalized catalog
title, first such record `b0`, the lookup of `app/tools/summary.py` that
every tool-calling loop actually invokes returns the fixed not-found
string — no reachable lookup has a substring fallback; only the dead-code
lookup of the shadowed module `app/tools.py` would fall back to the
substring match and return `b0`'s summary chain. -/
theorem lookup_fallback_split (books : List Book) (title : String) (b0 : Book)
    (hsumm : books.find? (fun b => pyLower (pyStrip (truthyStr b.title)) ==
      pyLower (pyStrip (pyOrStr title ""))) = none)
    (hex : books.find? (fun b => ToolsTop._norm (truthyStr b.title) ==
      ToolsTop._norm title) = none)
    (hsub : books.find? (fun b => pyIn (ToolsTop._norm title)
      (ToolsTop._norm (truthyStr b.title))) = some b0) :
    SummaryTool.get_summary_by_title books title = notFoundMsg ∧
    ToolsTop.get_summary_by_title books title = ToolsTop.fullOrFallback b0 := by
  constructor
  · simp only [SummaryTool.get_summary_by_title]
    rw [hsumm]
  · simp only [ToolsTop.get_summary_by_title]
    rw [hex, hsub]

/-- Witness for the amended C2: the catalog `["The Hobbit"]` with title
`"hobbit"`. -/
theorem lookup_fallback_split_witness :
    SummaryTool.get_summary_by_title demoBooks "hobbit" = notFoundMsg ∧
    ToolsTop.get_summary_by_title demoBooks "hobbit" =
      ToolsTop.fullOrFallback hobbitBook :=
  lookup_fallback_split demoBooks "hobbit" hobbitBook
    (by decide) (by decide) (by decide)

/-- C4: the target names are computed from the hash of the input alone
(`audioNameOf` / `imgNameOf`), before any remote call.  When the target
file is absent, the first run invokes both remote endpoints and — when each
call succeeds with a differently-named scratch file — renames the results
onto the two target paths; a second run for the same answer and title then
finds both files present, skips both remote calls entirely and leaves the
directories unchanged, so the output paths are identical across the two
runs. -/
theorem bg_generate_cache_idempotent (sha1hex : String → String)
    (answer picked_title : String) (env : BgEnv) (r1 r2 : BgRemote)
    (o oi : String)
    (ha : env.sttFs.contains (audioNameOf sha1hex answer) = false)
    (hi : picked_title ≠ "")
    (hic : env.imgFs.contains (imgNameOf sha1hex picked_title) = false)
    (hto : r1.ttsOut = some o) (hod : o ≠ audioNameOf sha1hex answer)
    (hio : r1.imgOut = some oi) (hoid : oi ≠ imgNameOf sha1hex picked_title) :
    (bgGenerate sha1hex answer picked_title env r1).ttsCalled = true ∧
    (bgGenerate sha1hex answer picked_title env r1).imgCalled = true ∧
    (bgGenerate sha1hex answer picked_title env r1).env =
      ⟨audioNameOf sha1hex answer :: env.sttFs,
       imgNameOf sha1hex picked_title :: env.imgFs⟩ ∧
    bgGenerate sha1hex answer picked_title
        (bgGenerate sha1hex answer picked_title env r1).env r2 =
      ⟨(bgGenerate sha1hex answer picked_title env r1).env, false, false⟩ := by
  have ha' : audioNameOf sha1hex answer ∉ env.sttFs := by simpa using ha
  have hic' : imgNameOf sha1hex picked_title ∉ env.imgFs := by simpa using hic
  have henv : (bgGenerate sha1hex answer picked_title env r1).env =
      ⟨audioNameOf sha1hex answer :: env.sttFs,
       imgNameOf sha1hex picked_title :: env.imgFs⟩ := by
    simp [bgGenerate, ha', hic', hto, hio, hod, hoid, hi]
  refine ⟨?_, ?_, henv, ?_⟩
  · simp [bgGenerate, ha']
  · simp [bgGenerate, hic', hi]
  · rw [henv]
    simp [bgGenerate, List.contains_cons, hi]

/-- Witness for C4: empty directories, identity hash, successful remote
calls producing scratch names `"u1"`, `"u2"`; the second run skips both
remote calls and changes nothing. -/
theorem bg_generate_cache_idempotent_witness :
    (bgGenerate (fun s => s) "a" "T" ⟨[], []⟩ ⟨some "u1", some "u2"⟩).ttsCalled = true ∧
    (bgGenerate (fun s => s) "a" "T" ⟨[], []⟩ ⟨some "u1", some "u2"⟩).imgCalled = true ∧
    (bgGenerate (fun s => s) "a" "T" ⟨[], []⟩ ⟨some "u1", some "u2"⟩).env =
      ⟨[audioNameOf (fun s => s) "a"], [imgNameOf (fun s => s) "T"]⟩ ∧
    bgGenerate (fun s => s) "a" "T"
        (bgGenerate (fun s => s) "a" "T" ⟨[], []⟩ ⟨some "u1", some "u2"⟩).env
        ⟨some "u3", some "u4"⟩ =
      ⟨(bgGenerate (fun s => s) "a" "T" ⟨[], []⟩ ⟨some "u1", some "u2"⟩).env,
       false, false⟩ :=
  bg_generate_cache_idempotent (fun s => s) "a" "T" ⟨[], []⟩
    ⟨some "u1", some "u2"⟩ ⟨some "u3", some "u4"⟩ "u1" "u2"
    (by decide) (by decide) (by decide) rfl (by decide) rfl (by decide)

/-- C5: a transcription request whose content hash misses the cache invokes
the remote service, inserts the transcript under the SHA-1 of the uploaded
bytes and rewrites the whole mapping as the persisted document; a second
request with byte-identical content — any filename with an allowed
extension, any fresh destination name, any remote behaviour — returns the
cached transcript with `cached = true`, leaves cache and persisted document
unchanged, and does not invoke the remote service. -/
theorem stt_transcribe_cache_hit_second (sha1file : Bytes → String)
    (st : SttState) (fn1 fn2 : String) (c : Bytes) (fresh1 fresh2 : String)
    (t : String) (r2 : Option String)
    (h1 : allowedExts.contains (pyLower (pyOrStr (pySuffix fn1) "")) = true)
    (h2 : allowedExts.contains (pyLower (pyOrStr (pySuffix fn2) "")) = true)
    (hmiss : dictGet st.cache (sha1file c) = none) :
    stt_transcribe sha1file st fn1 c fresh1 (some t) =
      .ok ⟨pyOrStr t "",
           "/static/stt/" ++ (fresh1 ++ pyLower (pyOrStr (pySuffix fn1) "")),
           false⟩
        ⟨(fresh1 ++ pyLower (pyOrStr (pySuffix fn1) ""), c) :: st.files,
         (sha1file c, pyOrStr t "") :: st.cache,
         (sha1file c, pyOrStr t "") :: st.cache⟩ true ∧
    stt_transcribe sha1file
        ⟨(fresh1 ++ pyLower (pyOrStr (pySuffix fn1) ""), c) :: st.files,
         (sha1file c, pyOrStr t "") :: st.cache,
         (sha1file c, pyOrStr t "") :: st.cache⟩ fn2 c fresh2 r2 =
      .ok ⟨pyOrStr t "",
           "/static/stt/" ++ (fresh2 ++ pyLower (pyOrStr (pySuffix fn2) "")),
           true⟩
        ⟨(fresh2 ++ pyLower (pyOrStr (pySuffix fn2) ""), c) ::
           (fresh1 ++ pyLower (pyOrStr (pySuffix fn1) ""), c) :: st.files,
         (sha1file c, pyOrStr t "") :: st.cache,
         (sha1file c, pyOrStr t "") :: st.cache⟩ false := by
  have h1' : pyLower (pyOrStr (pySuffix fn1) "") ∈ allowedExts := by simpa using h1
  have h2' : pyLower (pyOrStr (pySuffix fn2) "") ∈ allowedExts := by simpa using h2
  constructor
  · simp [stt_transcribe, h1', hmiss]
  · simp [stt_transcribe, h2', dictGet]

/-- Witness for C5: uploading the bytes `[1, 2]` as `"a.mp3"` and then as
`"b.wav"`; the second call returns the cached transcript with
`cached = true` and no remote call. -/
theorem stt_transcribe_cache_hit_second_witness :
    stt_transcribe (fun _ => "h") ⟨[], [], []⟩ "a.mp3" [1, 2] "f1" (some "hello") =
      .ok ⟨"hello", "/static/stt/f1.mp3", false⟩
        ⟨[("f1.mp3", [1, 2])], [("h", "hello")], [("h", "hello")]⟩ true ∧
    stt_transcribe (fun _ => "h")
        ⟨[("f1.mp3", [1, 2])], [("h", "hello")], [("h", "hello")]⟩
        "b.wav" [1, 2] "f2" none =
      .ok ⟨"hello", "/static/stt/f2.wav", true⟩
        ⟨[("f2.wav", [1, 2]), ("f1.mp3", [1, 2])],
         [("h", "hello")], [("h", "hello")]⟩ false := by
  have h := stt_transcribe_cache_hit_second (fun _ => "h") ⟨[], [], []⟩
    "a.mp3" "b.wav" [1, 2] "f1" "f2" "hello" none
    (by decide) (by decide) (by decide)
  obtain ⟨hA, hB⟩ := h
  constructor
  · rw [hA]; decide
  · exact hB

/-- C10: every transcription request with an allowed extension writes the
uploaded bytes to a freshly named file before the cache is consulted, in
every outcome (cache hit, remote success, remote failure); on a cache hit
the response carries the URL of that new file and `cached = true`, the
remote service is not invoked, and the cache and persisted document are
unchanged — the new file is the only state change besides the cache. -/
theorem stt_transcribe_frame (sha1file : Bytes → String) (st : SttState)
    (filename : String) (c : Bytes) (fresh : String) (remote : Option String)
    (h : allowedExts.contains (pyLower (pyOrStr (pySuffix filename) "")) = true) :
    (stt_transcribe sha1file st filename c fresh remote).state.files =
      (fresh ++ pyLower (pyOrStr (pySuffix filename) ""), c) :: st.files ∧
    (∀ t, dictGet st.cache (sha1file c) = some t →
      stt_transcribe sha1file st filename c fresh remote =
        .ok ⟨t, "/static/stt/" ++ (fresh ++ pyLower (pyOrStr (pySuffix filename) "")),
             true⟩
          ⟨(fresh ++ pyLower (pyOrStr (pySuffix filename) ""), c) :: st.files,
           st.cache, st.persisted⟩ false) := by
  have h' : pyLower (pyOrStr (pySuffix filename) "") ∈ allowedExts := by simpa using h
  constructor
  · cases hm : dictGet st.cache (sha1file c) with
    | some t => simp [stt_transcribe, h', hm, SttResult.state]
    | none => cases remote <;> simp [stt_transcribe, h', hm, SttResult.state]
  · intro t ht
    simp [stt_transcribe, h', ht]

/-- Witness for C10: a cache-hit upload still writes a new file (under the
fresh name `"f.ogg"`) and leaves cache and persisted document unchanged. -/
theorem stt_transcribe_frame_witness :
    (stt_transcribe (fun _ => "h")
        ⟨[("old.mp3", [9])], [("h", "hi")], [("h", "hi")]⟩
        "x.ogg" [1] "f" none).state.files =
      [("f.ogg", [1]), ("old.mp3", [9])] ∧
    stt_transcribe (fun _ => "h")
        ⟨[("old.mp3", [9])], [("h", "hi")], [("h", "hi")]⟩
        "x.ogg" [1] "f" none =
      .ok ⟨"hi", "/static/stt/f.ogg", true⟩
        ⟨[("f.ogg", [1]), ("old.mp3", [9])], [("h", "hi")], [("h", "hi")]⟩
        false := by
  have h := stt_transcribe_frame (fun _ => "h")
    ⟨[("old.mp3", [9])], [("h", "hi")], [("h", "hi")]⟩ "x.ogg" [1] "f" none
    (by decide)
  obtain ⟨hA, hB⟩ := h
  constructor
  · rw [hA]; decide
  · rw [hB "hi" (by decide)]; decide

/-- The strict record loop raises exactly when some record has a missing
field. -/
theorem checkBooks_error_iff (books : List Book) : ∀ i : Nat,
    (∃ e, checkBooks true i books = .error e) ↔
      ∃ b ∈ books, missingOf b ≠ [] := by
  induction books with
  | nil => intro i; simp [checkBooks]
  | cons b rest ih =>
    intro i
    by_cases hb : missingOf b = []
    · simp [checkBooks, hb, ih (i + 1)]
    · simp only [checkBooks, hb, if_pos, ne_eq, not_false_eq_true, if_true]
      constructor
      · intro _; exact ⟨b, List.mem_cons_self b rest, hb⟩
      · intro _; exact ⟨bookMsg i b, rfl⟩

/-- The non-strict record loop never raises; its warning list is nonempty
exactly when some record has a missing field. -/
theorem checkBooks_false_ok (books : List Book) : ∀ i : Nat,
    ∃ ws, checkBooks false i books = .ok ws ∧
      (ws ≠ [] ↔ ∃ b ∈ books, missingOf b ≠ []) := by
  induction books with
  | nil => intro i; exact ⟨[], by simp [checkBooks]⟩
  | cons b rest ih =>
    intro i
    obtain ⟨ws, hws, hiff⟩ := ih (i + 1)
    by_cases hb : missingOf b = []
    · refine ⟨ws, by simp [checkBooks, hb, hws], ?_⟩
      simp [hb, hiff]
    · refine ⟨bookMsg i b :: ws, by simp [checkBooks, hb, hws], ?_⟩
      simp only [ne_eq, List.cons_ne_nil, not_false_eq_true, true_iff]
      exact ⟨b, List.mem_cons_self b rest, hb⟩

/-- C8: with `strict=True`, `validate_dataset` raises exactly when the
dataset has fewer than 10 records or some record lacks a nonempty `title`,
`short` or `full` field; with `strict=False` it never raises and its
returned warning list is nonempty under exactly the same conditions.
`missingOf b = []` unfolds to all three required fields being truthy. -/
theorem validate_dataset_strict_modes (books : List Book) :
    ((∃ e, validate_dataset books true = .error e) ↔
      (books.length < 10 ∨ ∃ b ∈ books, missingOf b ≠ [])) ∧
    (∃ ws, validate_dataset books false = .ok ws ∧
      (ws ≠ [] ↔ (books.length < 10 ∨ ∃ b ∈ books, missingOf b ≠ []))) ∧
    (∀ b : Book, missingOf b = [] ↔
      (truthyField b.title = true ∧ truthyField b.short = true ∧
       truthyField b.full = true)) := by
  refine ⟨?_, ?_, ?_⟩
  · by_cases hlen : books.length < 10
    · simp [validate_dataset, hlen]
    · simp [validate_dataset, hlen, checkBooks_error_iff books 0]
  · obtain ⟨ws, hws, hiff⟩ := checkBooks_false_ok books 0
    by_cases hlen : books.length < 10
    · refine ⟨sizeMsg books.length :: ws, ?_, ?_⟩
      · simp [validate_dataset, hlen, hws, Except.map]
      · simp [hlen]
    · refine ⟨ws, ?_, ?_⟩
      · simp [validate_dataset, hlen, hws]
      · simp [hlen, hiff]
  · intro b
    by_cases h1 : truthyStr b.title = "" <;>
      by_cases h2 : truthyStr b.short = "" <;>
        by_cases h3 : truthyStr b.full = "" <;>
          simp [missingOf, truthyField, List.zip_cons_cons, List.filterMap_cons,
            h1, h2, h3]
